import Mathlib

set_option autoImplicit false

universe u

/-- Model of Qt QMap with QString keys as an association list.
`insert` replaces the first binding of the key in place and appends a new
binding otherwise; `lookup` returns the first binding of the key.
Qt iterates a QMap in key order; none of the verified properties depend on
the iteration order across distinct keys, so the association list keeps
insertion order. -/
def QMap (α : Type u) : Type u := List (String × α)

namespace QMap

variable {α : Type u}

/-- The empty map (a default-constructed QMap). -/
def empty : QMap α := []

/-- QMap lookup: the binding of `k`, if any. -/
def lookup (k : String) : QMap α → Option α
  | [] => none
  | (k1, v1) :: rest => if k1 = k then some v1 else lookup k rest

/-- QMap insert: replace the binding of `k` in place, or add one. -/
def insert (k : String) (v : α) : QMap α → QMap α
  | [] => [(k, v)]
  | (k1, v1) :: rest => if k1 = k then (k, v) :: rest else (k1, v1) :: insert k v rest

/-- QMap remove: drop every binding of `k`. -/
def remove (k : String) : QMap α → QMap α
  | [] => []
  | (k1, v1) :: rest => if k1 = k then remove k rest else (k1, v1) :: remove k rest

/-- QMap contains. -/
def contains (k : String) (m : QMap α) : Bool := (lookup k m).isSome

/-- QMap isEmpty. -/
def isEmpty (m : QMap α) : Bool := List.isEmpty m

/-- QMap keys, in storage order. -/
def keys (m : QMap α) : List String := m.map Prod.fst

/-- QMap value with an explicit default (QMap::value returns a
default-constructed value for a missing key). -/
def valueD (k : String) (d : α) (m : QMap α) : α := (lookup k m).getD d

@[simp] theorem lookup_empty (k : String) : lookup k (empty : QMap α) = none := rfl

@[simp] theorem lookup_insert_self (k : String) (v : α) (m : QMap α) :
    lookup k (insert k v m) = some v := by
  induction m with
  | nil => simp [insert, lookup]
  | cons p rest ih =>
    obtain ⟨k1, v1⟩ := p
    by_cases h : k1 = k
    · simp [insert, h, lookup]
    · simp [insert, h, lookup, ih]

theorem lookup_insert_ne {k k1 : String} (v : α) (m : QMap α) (h : k1 ≠ k) :
    lookup k1 (insert k v m) = lookup k1 m := by
  induction m with
  | nil =>
    have hne : ¬ k = k1 := fun hh => h (Eq.symm hh)
    simp [insert, lookup, hne]
  | cons p rest ih =>
    obtain ⟨k2, v2⟩ := p
    by_cases h2 : k2 = k
    · subst h2
      have hne : ¬ k2 = k1 := fun hh => h (Eq.symm hh)
      simp [insert, lookup, hne]
    · simp only [insert, if_neg h2, lookup]
      by_cases h3 : k2 = k1
      · simp [h3]
      · simp [h3, ih]

@[simp] theorem lookup_remove_self (k : String) (m : QMap α) :
    lookup k (remove k m) = none := by
  induction m with
  | nil => rfl
  | cons p rest ih =>
    obtain ⟨k1, v1⟩ := p
    by_cases h : k1 = k
    · simp [remove, h, ih]
    · simp [remove, h, lookup, ih]

theorem lookup_remove_ne {k k1 : String} (m : QMap α) (h : k1 ≠ k) :
    lookup k1 (remove k m) = lookup k1 m := by
  induction m with
  | nil => rfl
  | cons p rest ih =>
    obtain ⟨k2, v2⟩ := p
    by_cases h2 : k2 = k
    · subst h2
      have hne : ¬ k2 = k1 := fun hh => h (Eq.symm hh)
      simp [remove, lookup, hne, ih]
    · simp only [remove, if_neg h2, lookup]
      by_cases h3 : k2 = k1
      · simp [h3]
      · simp [h3, ih]

theorem contains_insert_self (k : String) (v : α) (m : QMap α) :
    contains k (insert k v m) = true := by
  simp [contains]

theorem contains_eq_false_iff (k : String) (m : QMap α) :
    contains k m = false ↔ lookup k m = none := by
  simp [contains, Option.isSome]
  cases lookup k m <;> simp

theorem contains_eq_true_iff (k : String) (m : QMap α) :
    contains k m = true ↔ ∃ v, lookup k m = some v := by
  simp [contains, Option.isSome]
  cases lookup k m <;> simp

end QMap

instance {α : Type u} [DecidableEq α] : DecidableEq (QMap α) :=
  inferInstanceAs (DecidableEq (List (String × α)))

/-- QString::startsWith, on the character list of the string. -/
def qStartsWith (s p : String) : Bool := List.isPrefixOf p.data s.data

/-! ## UDisks2 backend (udisksmanager.cpp)

Constants from the backend header (udisks2.h). Their concrete values are
opaque routing tokens; everything below only compares them for equality
and prefixes, as the source does. -/

namespace UDisks2

def UD2_DBUS_SERVICE : String := "org.freedesktop.UDisks2"
def UD2_DBUS_PATH_BLOCK_DEVICES : String := "/org/freedesktop/UDisks2/block_devices"
def UD2_DBUS_PATH_DRIVES : String := "/org/freedesktop/UDisks2/drives"
def UD2_DBUS_PATH_JOBS : String := "/org/freedesktop/UDisks2/jobs"
def UD2_UDI_DISKS_PREFIX : String := "/org/freedesktop/UDisks2"
def UD2_DBUS_INTERFACE_BLOCK : String := "org.freedesktop.UDisks2.Block"
def UD2_DBUS_INTERFACE_FILESYSTEM : String := "org.freedesktop.UDisks2.Filesystem"

/-- The property name checked by the media-change heuristic. -/
def propSize : String := "Size"

/-- A QVariant value. `invalid` is the default-constructed QVariant, used
by the cache both as the unresolved sentinel and as a negative result.
Utils::sanitizeValue only unwraps D-Bus marshalling and is the identity on
already-plain values, so it is not modelled separately. -/
inductive Val where
  | invalid
  | num (n : Nat)
  | str (s : String)
  | boolean (b : Bool)
deriving DecidableEq

/-- QVariant::isValid. -/
def Val.isValid : Val → Bool
  | Val.invalid => false
  | _ => true

/-- QVariant::toULongLong, for the value kinds that occur here. -/
def Val.toULongLong : Val → Nat
  | Val.num n => n
  | Val.boolean true => 1
  | _ => 0

/-- interface name → property name → value (QVariantMap per interface). -/
abbrev VariantMapMap := QMap (QMap Val)

/-- udi → interface → property → value: the type of Manager::m_cache. -/
abbrev Cache := QMap VariantMapMap

/-- A synchronous org.freedesktop.DBus.Properties.Get round-trip performed
by deviceProperty, recorded so that theorems can talk about remote calls. -/
structure DBusCall where
  udi : String
  iface : String
  name : String
deriving DecidableEq

/-- The external collaborators of the backend: the D-Bus service replies
and the Device helper object (the Device class is outside the verified
sources). Replies are modelled post-sanitizeValue; a failed reply is
`Val.invalid` for Get, `none` for GetAll and GetManagedObjects. -/
structure DBusEnv where
  getProp : String → String → String → Val
  getAll : String → String → Option (QMap Val)
  managedObjects : Option (QMap VariantMapMap)
  mightBeOpticalDisc : String → Bool

/-- Manager::FetchMode. -/
inductive FetchMode where
  | CachedOnly
  | FetchIfNeeded
deriving DecidableEq

/-- `m_cache[udi][iface][name] = v` with QMap::operator[] semantics:
missing intermediate entries are default-constructed. -/
def cacheStore (cache : Cache) (udi iface name : String) (v : Val) : Cache :=
  let entry := QMap.valueD udi QMap.empty cache
  let props := QMap.valueD iface QMap.empty entry
  QMap.insert udi (QMap.insert iface (QMap.insert name v props) entry) cache

namespace Manager

/-- The loop of Manager::deviceProperty over the interfaces of a device:
find the first interface whose property map has `name`; fetch and store if
the cached value is the invalid sentinel and the mode allows it. -/
def dpLoop (env : DBusEnv) (cache : Cache) (udi name : String) (mode : FetchMode) :
    List (String × QMap Val) → Cache × Val × List DBusCall
  | [] => (cache, Val.invalid, [])
  | (iface, props) :: rest =>
    match QMap.lookup name props with
    | some v =>
      if v.isValid = false ∧ mode = FetchMode.FetchIfNeeded then
        let value := env.getProp udi iface name
        (cacheStore cache udi iface name value, value, [⟨udi, iface, name⟩])
      else
        (cache, v, [])
    | none => dpLoop env cache udi name mode rest

/-- Manager::deviceProperty. Returns the updated m_cache, the value, and
the list of remote Properties.Get calls it performed. -/
def deviceProperty (env : DBusEnv) (cache : Cache) (udi name : String) (mode : FetchMode) :
    Cache × Val × List DBusCall :=
  dpLoop env cache udi name mode (QMap.valueD udi QMap.empty cache)

/-- The first interface of an entry whose property map has `name`,
together with the cached value: the pair deviceProperty's loop stops at. -/
def findFirstProp (name : String) : List (String × QMap Val) → Option (String × Val)
  | [] => none
  | (iface, props) :: rest =>
    match QMap.lookup name props with
    | some v => some (iface, v)
    | none => findFirstProp name rest

/-- Events emitted by the Manager (the Qt signals deviceAdded,
deviceRemoved, propertyChanged), in emission order. -/
inductive Event where
  | added (udi : String)
  | removed (udi : String)
  | propertyChanged (udi : String) (changeMap : QMap Unit)
deriving DecidableEq

/-- QList::removeOne: drop the first occurrence of a value. -/
def removeOne (x : String) : List String → List String
  | [] => []
  | y :: rest => if y = x then rest else y :: removeOne x rest

/-- The merge step of slotInterfacesAdded: insert every supplied interface
whose name lies in the UDisks2 service namespace, skipping generic D-Bus
interfaces. -/
def mergeSupplied (im : VariantMapMap) (entry0 : VariantMapMap) : VariantMapMap :=
  List.foldl
    (fun e p => if qStartsWith p.1 UD2_DBUS_SERVICE then QMap.insert p.1 p.2 e else e)
    entry0 im

/-- The re-fetch step of slotInterfacesAdded: GetAll every previously
known interface, replacing its properties wholesale when the reply is
valid and leaving them untouched otherwise. -/
def refetchOld (env : DBusEnv) (udi : String) (oldIfaces : List String)
    (e0 : VariantMapMap) : VariantMapMap :=
  List.foldl
    (fun e iface =>
      match env.getAll udi iface with
      | some m => QMap.insert iface m e
      | none => e)
    e0 oldIfaces

/-- Manager::slotInterfacesAdded. -/
def slotInterfacesAdded (env : DBusEnv) (cache : Cache) (udi : String)
    (im : VariantMapMap) : Cache × List Event :=
  if qStartsWith udi UD2_DBUS_PATH_JOBS then (cache, [])
  else
    let isNewDevice : Bool := !(QMap.contains udi cache)
    let entry0 := QMap.valueD udi QMap.empty cache
    let oldInterfaces := removeOne UD2_DBUS_INTERFACE_BLOCK (QMap.keys entry0)
    let entry1 := mergeSupplied im entry0
    let entry2 := refetchOld env udi oldInterfaces entry1
    (QMap.insert udi entry2 cache,
     if isNewDevice || QMap.contains UD2_DBUS_INTERFACE_FILESYSTEM im then
       [Event.added udi]
     else [])

/-- Manager::slotInterfacesRemoved. -/
def slotInterfacesRemoved (cache : Cache) (udi : String)
    (interfaces : List String) : Cache × List Event :=
  if udi = "" then (cache, [])
  else if qStartsWith udi UD2_DBUS_PATH_JOBS then (cache, [])
  else
    match QMap.lookup udi cache with
    | none => (cache, [])
    | some entry =>
      let entry2 := List.foldl (fun e iface => QMap.remove iface e) entry interfaces
      if QMap.isEmpty entry2 then
        (QMap.remove udi cache, [Event.removed udi])
      else
        (QMap.insert udi entry2 cache, [Event.removed udi, Event.added udi])

/-- The changeMap built by slotPropertiesChanged: every invalidated and
every changed property name, marked PropertyModified. -/
def mkChangeMap (changed : QMap Val) (invalidated : List String) : QMap Unit :=
  let m1 := List.foldl (fun m prop => QMap.insert prop () m) QMap.empty invalidated
  List.foldl (fun m p => QMap.insert p.1 () m) m1 changed

/-- The cache merge of slotPropertiesChanged for a known device: store the
invalid sentinel for every invalidated name, then the changed values. -/
def mergeChanged (iface : String) (changed : QMap Val) (invalidated : List String)
    (entry : VariantMapMap) : VariantMapMap :=
  let e1 := List.foldl
    (fun e prop => QMap.insert iface (QMap.insert prop Val.invalid (QMap.valueD iface QMap.empty e)) e)
    entry invalidated
  List.foldl
    (fun e p => QMap.insert iface (QMap.insert p.1 p.2 (QMap.valueD iface QMap.empty e)) e)
    e1 changed

/-- Manager::slotPropertiesChanged (with the D-Bus message already
decoded into path, interface, changed map and invalidated list). -/
def slotPropertiesChanged (env : DBusEnv) (cache : Cache) (udi iface : String)
    (changed : QMap Val) (invalidated : List String) : Cache × List Event :=
  if udi = "" || !(qStartsWith udi UD2_UDI_DISKS_PREFIX) || qStartsWith udi UD2_DBUS_PATH_JOBS then
    (cache, [])
  else
    let knownDevice : Bool := QMap.contains udi cache
    let step1 : Cache × List Event :=
      match QMap.lookup udi cache with
      | some entry =>
        let changeMap := mkChangeMap changed invalidated
        (QMap.insert udi (mergeChanged iface changed invalidated entry) cache,
         if QMap.isEmpty changeMap then [] else [Event.propertyChanged udi changeMap])
      | none => (cache, [])
    let cache1 := step1.1
    let events1 := step1.2
    if iface = UD2_DBUS_INTERFACE_BLOCK ∧ QMap.contains propSize changed = true then
      let size := (QMap.valueD propSize Val.invalid changed).toULongLong
      let mediaInserted : Bool := !knownDevice && decide (0 < size)
      let mediaRemoved : Bool := knownDevice && decide (size = 0)
      if mediaInserted || mediaRemoved then
        if env.mightBeOpticalDisc udi then
          if !knownDevice && decide (0 < size) then
            (QMap.insert udi (QMap.insert udi changed QMap.empty) cache1,
             events1 ++ [Event.added udi])
          else if knownDevice && decide (size = 0) then
            (QMap.remove udi cache1, events1 ++ [Event.removed udi])
          else (cache1, events1)
        else (cache1, events1)
      else (cache1, events1)
    else (cache1, events1)

/-- Manager::allDevices: clear m_cache and repopulate it from a
GetManagedObjects round-trip, keeping only block devices and drives;
returns the new cache and the key list. -/
def allDevices (env : DBusEnv) : Cache × List String :=
  match env.managedObjects with
  | none => (QMap.empty, [])
  | some items =>
    let cache := List.foldl
      (fun c p =>
        if qStartsWith p.1 UD2_DBUS_PATH_BLOCK_DEVICES || qStartsWith p.1 UD2_DBUS_PATH_DRIVES then
          QMap.insert p.1 p.2 c
        else c)
      QMap.empty items
    (cache, QMap.keys cache)

/-- Manager::deviceCache: resync via allDevices when m_cache is empty. -/
def deviceCache (env : DBusEnv) (cache : Cache) : Cache :=
  if QMap.isEmpty cache then (allDevices env).1 else cache

/-- The backend object handed to the frontend: a shared RootDevice for the
manager udi, a UDisks2::Device for a cached udi. -/
inductive BackendObj where
  | rootDevice (udi : String)
  | device (udi : String)
deriving DecidableEq

/-- Manager::createDevice. The middle branch consults deviceCache(),
which may resync the cache; the updated cache is returned. -/
def createDevice (env : DBusEnv) (cache : Cache) (udi : String) :
    Cache × Option BackendObj :=
  if udi = UD2_UDI_DISKS_PREFIX then (cache, some (BackendObj.rootDevice udi))
  else
    let c := deviceCache env cache
    if QMap.contains udi c then (c, some (BackendObj.device udi)) else (c, none)

end Manager

end UDisks2

/-! ## Frontend device registry (devicemanager.cpp)

The registry is generic in the backend object type σ (Ifaces::Device): the
frontend only stores, nulls and re-resolves such objects. -/

namespace Frontend

/-- A registered backend adapter as the frontend sees it: udiPrefix() and
createDevice(). createDevice returns none when the backend does not know
the identifier or the created object fails the Ifaces::Device cast (the
source deletes the object and returns nullptr in that case). -/
structure Backend (σ : Type) where
  udiPfx : String
  createDevice : String → Option σ

/-- DeviceManagerPrivate::createBackendObject: route the identifier to the
first registered backend whose udiPrefix is a prefix of the udi and ask it
to create the device; the loop returns on the first prefix match, whether
or not creation succeeded. -/
def createBackendObject {σ : Type} (backends : List (Backend σ)) (udi : String) : Option σ :=
  match backends with
  | [] => none
  | b :: rest =>
    if qStartsWith udi b.udiPfx then b.createDevice udi
    else createBackendObject rest udi

/-- A DevicePrivate handle: the heap object identity `hid` plus the
nullable non-owning backend object. The frontend Device wrappers that do
the reference counting live outside the verified sources. -/
structure DevicePrivate (σ : Type) where
  hid : Nat
  backendObject : Option σ
deriving DecidableEq

/-- The registry state: m_devicesMap (the identity map from udi to its one
DevicePrivate) and a counter allocating fresh handle identities. -/
structure RegistryState (σ : Type) where
  devicesMap : QMap (DevicePrivate σ)
  nextId : Nat
deriving DecidableEq

/-- m_nullDevice, handed out for the empty udi. -/
def nullDevice {σ : Type} : DevicePrivate σ := { hid := 0, backendObject := none }

/-- A freshly constructed DeviceManagerPrivate. -/
def initState {σ : Type} : RegistryState σ := { devicesMap := QMap.empty, nextId := 1 }

/-- DeviceManagerPrivate::findRegisteredDevice. -/
def findRegisteredDevice {σ : Type} (backends : List (Backend σ))
    (st : RegistryState σ) (udi : String) : RegistryState σ × DevicePrivate σ :=
  if udi = "" then (st, nullDevice)
  else
    match QMap.lookup udi st.devicesMap with
    | some dev => (st, dev)
    | none =>
      let iface := createBackendObject backends udi
      let devData : DevicePrivate σ := { hid := st.nextId, backendObject := iface }
      ({ devicesMap := QMap.insert udi devData st.devicesMap, nextId := st.nextId + 1 },
       devData)

/-- Events the frontend registry re-emits to its consumers (the Qt signals
deviceAdded / deviceRemoved of DeviceNotifier). -/
inductive RegEvent where
  | deviceAdded (udi : String)
  | deviceRemoved (udi : String)
deriving DecidableEq

/-- DeviceManagerPrivate::_k_deviceAdded. Returns the new state, the
re-emitted events, and the evaluated conditions of the Q_ASSERT checks the
handler performs, in order. -/
def kDeviceAdded {σ : Type} (backends : List (Backend σ))
    (st : RegistryState σ) (udi : String) :
    RegistryState σ × List RegEvent × List Bool :=
  match QMap.lookup udi st.devicesMap with
  | some dev =>
    if dev.backendObject.isNone then
      let newObj := createBackendObject backends udi
      let st2 : RegistryState σ :=
        { st with devicesMap := QMap.insert udi { dev with backendObject := newObj } st.devicesMap }
      (st2, [RegEvent.deviceAdded udi], [!newObj.isNone])
    else
      (st, [RegEvent.deviceAdded udi], [])
  | none => (st, [RegEvent.deviceAdded udi], [])

/-- DeviceManagerPrivate::_k_deviceRemoved. The first recorded assert is
Q_ASSERT(dev->backendObject() != nullptr) before nulling out, the second
is Q_ASSERT(dev->backendObject() == nullptr) after. -/
def kDeviceRemoved {σ : Type} (st : RegistryState σ) (udi : String) :
    RegistryState σ × List RegEvent × List Bool :=
  match QMap.lookup udi st.devicesMap with
  | some dev =>
    let st2 : RegistryState σ :=
      { st with devicesMap := QMap.insert udi { dev with backendObject := none } st.devicesMap }
    (st2, [RegEvent.deviceRemoved udi], [!dev.backendObject.isNone, true])
  | none => (st, [RegEvent.deviceRemoved udi], [])

/-! ### Device::listFromQuery (query engine frontend) -/

/-- Solid::DeviceInterface::Type, as an opaque enumeration index. -/
abbrev DevType := Nat

/-- Modelled from the spec: the Predicate parser and evaluator
(predicate.cpp) are outside the verified sources; this is the Predicate
class as the verified frontend uses it — isValid(), usedTypes() and
matches() — and per the spec an invalid/unparseable predicate reports
isValid() false. -/
structure Predicate where
  valid : Bool
  usedTypes : List DevType
  matchesDev : String → Bool

/-- A backend as used by Device::listFromQuery: supportedInterfaces(),
allDevices() and devicesFromQuery(). -/
structure QueryBackend where
  supported : List DevType
  allDevices : List String
  devicesFromQuery : String → DevType → List String

/-- The per-backend `seen` set deduplication: keep first occurrences. -/
def dedup (seen : List String) : List String → List String
  | [] => []
  | u :: rest =>
    if seen.contains u then dedup seen rest
    else u :: dedup (u :: seen) rest

/-- Device::listFromQuery(Predicate, parentUdi). For a valid predicate the
candidate types are the backend's supported set intersected with the
predicate's used types (QSet::intersect mutates in place), sorted for a
stable order; for an invalid predicate every device of every backend is
listed and matches unconditionally. -/
def listFromQueryPred (backends : List QueryBackend) (p : Predicate)
    (parentUdi : String) : List String :=
  backends.foldl
    (fun acc b =>
      let udis : List String :=
        if p.valid then
          let inter := b.supported.filter (fun t => p.usedTypes.contains t)
          if inter.isEmpty then []
          else (inter.mergeSort (fun a b => decide (a ≤ b))).foldl
            (fun us t => us ++ b.devicesFromQuery parentUdi t) []
        else
          b.allDevices
      acc ++ (dedup [] udis).filter (fun u => if p.valid then p.matchesDev u else true))
    []

/-- Device::listFromQuery(QString, parentUdi): parse, then query only if
the predicate is valid, else return the empty list. -/
def listFromQueryString (parse : String → Predicate) (backends : List QueryBackend)
    (s parentUdi : String) : List String :=
  let p := parse s
  if p.valid then listFromQueryPred backends p parentUdi else []

end Frontend

/-! ## Composed system: one frontend registry over the UDisks2 backend

The frontend DeviceManagerPrivate connected to the UDisks2 Manager, as the
constructors wire them: the backend's deviceAdded / deviceRemoved signals
run _k_deviceAdded / _k_deviceRemoved synchronously. In the source every
deviceAdded emission happens after all cache updates of its slot, and the
deviceRemoved handler never reads the backend cache, so delivering the
recorded events after the slot body, in order, on the final cache is
exact. -/

namespace Combined

open UDisks2 UDisks2.Manager Frontend

/-- The composed state: the backend's m_cache and the frontend registry. -/
structure Sys where
  cache : Cache
  front : RegistryState BackendObj
deriving DecidableEq

/-- Frontend createBackendObject specialised to the one registered UDisks2
backend and threading the backend cache: the frontend loop tests
udi.startsWith(backend->udiPrefix()) and then calls Manager::createDevice,
which may resync the cache through deviceCache(). -/
def createBackendObjectC (env : DBusEnv) (c : Cache) (udi : String) :
    Cache × Option BackendObj :=
  if qStartsWith udi UD2_UDI_DISKS_PREFIX then Manager.createDevice env c udi
  else (c, none)

/-- _k_deviceAdded in the composed system; also returns the evaluated
Q_ASSERT conditions. -/
def kAddedC (env : DBusEnv) (s : Sys) (udi : String) : Sys × List Bool :=
  match QMap.lookup udi s.front.devicesMap with
  | some dev =>
    if dev.backendObject.isNone then
      let r := createBackendObjectC env s.cache udi
      ({ cache := r.1,
         front := { s.front with
           devicesMap := QMap.insert udi { dev with backendObject := r.2 } s.front.devicesMap } },
       [!r.2.isNone])
    else (s, [])
  | none => (s, [])

/-- _k_deviceRemoved in the composed system; the first recorded Q_ASSERT
condition is dev->backendObject() != nullptr before nulling out. -/
def kRemovedC (s : Sys) (udi : String) : Sys × List Bool :=
  match QMap.lookup udi s.front.devicesMap with
  | some dev =>
    ({ s with front := { s.front with
         devicesMap := QMap.insert udi { dev with backendObject := none } s.front.devicesMap } },
     [!dev.backendObject.isNone, true])
  | none => (s, [])

/-- Deliver one backend event to the frontend handlers. propertyChanged is
connected to DevicePrivate slots, not to the registry map, so it does not
change the composed state. -/
def deliver (env : DBusEnv) (s : Sys) : Event → Sys × List Bool
  | Event.added udi => kAddedC env s udi
  | Event.removed udi => kRemovedC s udi
  | Event.propertyChanged _ _ => (s, [])

/-- Deliver a list of backend events in emission order, accumulating the
Q_ASSERT evaluations. -/
def deliverAll (env : DBusEnv) (s : Sys) (evs : List Event) : Sys × List Bool :=
  evs.foldl
    (fun acc ev =>
      let r := deliver env acc.1 ev
      (r.1, acc.2 ++ r.2))
    (s, [])

/-- One external stimulus of the composed system: a consumer lookup or a
D-Bus notification, each carrying the D-Bus world it runs against. -/
inductive Step where
  | find (env : DBusEnv) (udi : String)
  | ifacesAdded (env : DBusEnv) (path : String) (im : VariantMapMap)
  | ifacesRemoved (env : DBusEnv) (path : String) (ifaces : List String)
  | propsChanged (env : DBusEnv) (path iface : String) (changed : QMap Val)
      (invalidated : List String)

/-- Run one step: findRegisteredDevice for `find` (with the combined,
cache-threading createBackendObject), or the Manager slot followed by the
synchronous delivery of its emitted signals. -/
def runStep (s : Sys) : Step → Sys × List Bool
  | Step.find env udi =>
    if udi = "" then (s, [])
    else
      match QMap.lookup udi s.front.devicesMap with
      | some _ => (s, [])
      | none =>
        let r := createBackendObjectC env s.cache udi
        ({ cache := r.1,
           front := { devicesMap := QMap.insert udi
                        { hid := s.front.nextId, backendObject := r.2 } s.front.devicesMap,
                      nextId := s.front.nextId + 1 } },
         [])
  | Step.ifacesAdded env path im =>
    let r := Manager.slotInterfacesAdded env s.cache path im
    deliverAll env { s with cache := r.1 } r.2
  | Step.ifacesRemoved env path ifaces =>
    let r := Manager.slotInterfacesRemoved s.cache path ifaces
    deliverAll env { s with cache := r.1 } r.2
  | Step.propsChanged env path iface changed invalidated =>
    let r := Manager.slotPropertiesChanged env s.cache path iface changed invalidated
    deliverAll env { s with cache := r.1 } r.2

/-- The freshly constructed system. -/
def initSys : Sys := { cache := QMap.empty, front := Frontend.initState }

/-- Run a trace of steps, accumulating every Q_ASSERT evaluation. -/
def runTrace (s : Sys) : List Step → Sys × List Bool
  | [] => (s, [])
  | st :: rest =>
    let r := runStep s st
    let r2 := runTrace r.1 rest
    (r2.1, r.2 ++ r2.2)

end Combined

/-! ## Helper lemmas -/

namespace UDisks2
namespace Manager

/-- deviceProperty's loop, characterized by the first interface whose
property map has the requested name. -/
theorem dpLoop_eq (env : DBusEnv) (cache : Cache) (udi name : String) (mode : FetchMode)
    (l : List (String × QMap Val)) :
    dpLoop env cache udi name mode l
      = match findFirstProp name l with
        | none => (cache, Val.invalid, [])
        | some (iface, v) =>
          if v.isValid = false ∧ mode = FetchMode.FetchIfNeeded then
            (cacheStore cache udi iface name (env.getProp udi iface name),
             env.getProp udi iface name, [⟨udi, iface, name⟩])
          else (cache, v, []) := by
  induction l with
  | nil => rfl
  | cons p rest ih =>
    obtain ⟨iface, props⟩ := p
    simp only [dpLoop, findFirstProp]
    cases QMap.lookup name props with
    | none => exact ih
    | some v => rfl

/-- Replacing (in place) the properties of the interface that the
property scan stops at, with a map that binds the scanned name, moves the
scan result to the new binding. -/
theorem findFirstProp_insert (name iface : String) (v : Val) (pr : QMap Val)
    (l : List (String × QMap Val)) (w : Val)
    (h : findFirstProp name l = some (iface, w)) :
    findFirstProp name (QMap.insert iface (QMap.insert name v pr) l)
      = some (iface, v) := by
  induction l with
  | nil => simp [findFirstProp] at h
  | cons p rest ih =>
    obtain ⟨k1, props1⟩ := p
    by_cases hk : k1 = iface
    · subst hk
      simp [QMap.insert, findFirstProp, QMap.lookup_insert_self]
    · simp only [QMap.insert, if_neg hk]
      cases hl : QMap.lookup name props1 with
      | some w1 =>
        rw [findFirstProp, hl] at h
        simp only [Option.some.injEq, Prod.mk.injEq] at h
        exact absurd h.1 hk
      | none =>
        rw [findFirstProp, hl] at h
        rw [findFirstProp, hl]
        exact ih h

/-- The updated device entry after cacheStore. -/
theorem valueD_cacheStore_self (cache : Cache) (udi iface name : String) (v : Val) :
    QMap.valueD udi QMap.empty (cacheStore cache udi iface name v)
      = QMap.insert iface
          (QMap.insert name v
            (QMap.valueD iface QMap.empty (QMap.valueD udi QMap.empty cache)))
          (QMap.valueD udi QMap.empty cache) := by
  simp [cacheStore, QMap.valueD, QMap.lookup_insert_self]

/-- deviceProperty in CachedOnly mode, closed form: the first cached value
found, no cache change, no remote call. -/
theorem deviceProperty_cachedOnly (env : DBusEnv) (cache : Cache) (udi name : String) :
    deviceProperty env cache udi name FetchMode.CachedOnly
      = match findFirstProp name (QMap.valueD udi QMap.empty cache) with
        | none => (cache, Val.invalid, [])
        | some (_, v) => (cache, v, []) := by
  rw [deviceProperty, dpLoop_eq]
  cases findFirstProp name (QMap.valueD udi QMap.empty cache) with
  | none => rfl
  | some p =>
    obtain ⟨iface, v⟩ := p
    simp

end Manager
end UDisks2

/-! ## Claim theorems -/

open UDisks2 UDisks2.Manager in
/-- C6: Lazy resolution idempotence: a CachedOnly read leaves the cache
unchanged and makes no remote call (so it cannot perturb a later
CachedOnly read), and a FetchIfNeeded read followed by a CachedOnly read
of the same property yields the same value. -/
theorem c6_lazy_resolution_idempotence (env env2 : DBusEnv) (cache : Cache)
    (udi name : String) :
    (deviceProperty env cache udi name FetchMode.CachedOnly).1 = cache
    ∧ (deviceProperty env cache udi name FetchMode.CachedOnly).2.2 = []
    ∧ (deviceProperty env2 (deviceProperty env cache udi name FetchMode.FetchIfNeeded).1
         udi name FetchMode.CachedOnly).2.1
        = (deviceProperty env cache udi name FetchMode.FetchIfNeeded).2.1 := by
  refine ⟨?_, ?_, ?_⟩
  · rw [deviceProperty_cachedOnly]
    cases findFirstProp name (QMap.valueD udi QMap.empty cache) with
    | none => rfl
    | some p => obtain ⟨iface, v⟩ := p; rfl
  · rw [deviceProperty_cachedOnly]
    cases findFirstProp name (QMap.valueD udi QMap.empty cache) with
    | none => rfl
    | some p => obtain ⟨iface, v⟩ := p; rfl
  · cases hf : findFirstProp name (QMap.valueD udi QMap.empty cache) with
    | none =>
      have hfetch : deviceProperty env cache udi name FetchMode.FetchIfNeeded
          = (cache, Val.invalid, []) := by
        rw [deviceProperty, dpLoop_eq, hf]
      rw [hfetch, deviceProperty_cachedOnly, hf]
    | some p =>
      obtain ⟨iface, v⟩ := p
      by_cases hv : v.isValid = false
      · have hfetch : deviceProperty env cache udi name FetchMode.FetchIfNeeded
            = (cacheStore cache udi iface name (env.getProp udi iface name),
               env.getProp udi iface name, [⟨udi, iface, name⟩]) := by
          rw [deviceProperty, dpLoop_eq, hf]
          simp [hv]
        rw [hfetch, deviceProperty_cachedOnly, valueD_cacheStore_self,
          findFirstProp_insert name iface (env.getProp udi iface name)
            (QMap.valueD iface QMap.empty (QMap.valueD udi QMap.empty cache))
            (QMap.valueD udi QMap.empty cache) v hf]
      · have hfetch : deviceProperty env cache udi name FetchMode.FetchIfNeeded
            = (cache, v, []) := by
          rw [deviceProperty, dpLoop_eq, hf]
          simp [hv]
        rw [hfetch, deviceProperty_cachedOnly, hf]

/-! ### C4: the FetchIfNeeded fetch policy -/

/-- A D-Bus world whose every remote reply fails. -/
def envFail : UDisks2.DBusEnv :=
  { getProp := fun _ _ _ => UDisks2.Val.invalid
    getAll := fun _ _ => none
    managedObjects := some []
    mightBeOpticalDisc := fun _ => false }

/-- A D-Bus world whose Properties.Get call always answers 42. -/
def envGet42 : UDisks2.DBusEnv :=
  { envFail with getProp := fun _ _ _ => UDisks2.Val.num 42 }

def c4udi : String := "/org/freedesktop/UDisks2/block_devices/sda"
def c4name : String := "HintName"

/-- A cache where c4udi has the Block interface but no binding at all for
the property c4name. -/
def c4cacheMissing : UDisks2.Cache :=
  [(c4udi, [(UDisks2.UD2_DBUS_INTERFACE_BLOCK, [])])]

/-- A cache where c4udi's Block interface holds the unresolved sentinel
for the property c4name. -/
def c4cacheSentinel : UDisks2.Cache :=
  [(c4udi, [(UDisks2.UD2_DBUS_INTERFACE_BLOCK, [(c4name, UDisks2.Val.invalid)])])]

open UDisks2 UDisks2.Manager in
/-- C4 counterexample. Two failures of the claim as stated, at concrete
inputs. First, when the property is missing from every cached interface
map of the identifier, FetchIfNeeded performs no resolve call, stores
nothing and returns the invalid value, although the backend would answer
42: the loop only fetches a property that is present with the invalid
sentinel. Second, after a resolve that reported absence (stored as the
invalid value), a subsequent FetchIfNeeded read performs a further remote
call: the stored negative result is indistinguishable from the unresolved
sentinel. -/
theorem c4_counterexample :
    deviceProperty envGet42 c4cacheMissing c4udi c4name FetchMode.FetchIfNeeded
      = (c4cacheMissing, Val.invalid, [])
    ∧ (deviceProperty envFail
        (deviceProperty envFail c4cacheSentinel c4udi c4name FetchMode.FetchIfNeeded).1
        c4udi c4name FetchMode.FetchIfNeeded).2.2
      = [⟨c4udi, UD2_DBUS_INTERFACE_BLOCK, c4name⟩] := by
  constructor
  · decide
  · decide

open UDisks2 UDisks2.Manager in
/-- C4 (amended): in FetchIfNeeded mode, when the cached value of the
property is the unresolved/absent sentinel, a synchronous resolve call is
made, its result is stored even when it indicates absence, and it is
returned; a subsequent FetchIfNeeded read makes no further remote call
when the stored result is valid; and when the property is missing from
every cached interface of the identifier, no resolve call is made and the
invalid value is returned with the cache unchanged. -/
theorem c4_fetch_if_needed_policy (env env2 : DBusEnv) (cache : Cache)
    (udi name iface : String) :
    (findFirstProp name (QMap.valueD udi QMap.empty cache) = some (iface, Val.invalid) →
       deviceProperty env cache udi name FetchMode.FetchIfNeeded
         = (cacheStore cache udi iface name (env.getProp udi iface name),
            env.getProp udi iface name, [⟨udi, iface, name⟩]))
    ∧ (findFirstProp name (QMap.valueD udi QMap.empty cache) = some (iface, Val.invalid) →
       (env.getProp udi iface name).isValid = true →
       deviceProperty env2 (cacheStore cache udi iface name (env.getProp udi iface name))
           udi name FetchMode.FetchIfNeeded
         = (cacheStore cache udi iface name (env.getProp udi iface name),
            env.getProp udi iface name, []))
    ∧ (findFirstProp name (QMap.valueD udi QMap.empty cache) = none →
       deviceProperty env cache udi name FetchMode.FetchIfNeeded
         = (cache, Val.invalid, [])) := by
  refine ⟨?_, ?_, ?_⟩
  · intro hf
    rw [deviceProperty, dpLoop_eq, hf]
    simp [Val.isValid]
  · intro hf hval
    rw [deviceProperty, dpLoop_eq, valueD_cacheStore_self,
      findFirstProp_insert name iface (env.getProp udi iface name)
        (QMap.valueD iface QMap.empty (QMap.valueD udi QMap.empty cache))
        (QMap.valueD udi QMap.empty cache) Val.invalid hf]
    simp [hval]
  · intro hf
    rw [deviceProperty, dpLoop_eq, hf]

open UDisks2 UDisks2.Manager in
/-- Witness for c4_fetch_if_needed_policy: with the sentinel cached and a
backend answering 42, the fetch stores and returns 42 and the next read
makes no remote call. -/
theorem c4_fetch_if_needed_policy_witness :
    deviceProperty envGet42 c4cacheSentinel c4udi c4name FetchMode.FetchIfNeeded
      = (cacheStore c4cacheSentinel c4udi UD2_DBUS_INTERFACE_BLOCK c4name (Val.num 42),
         Val.num 42, [⟨c4udi, UD2_DBUS_INTERFACE_BLOCK, c4name⟩])
    ∧ deviceProperty envGet42
        (cacheStore c4cacheSentinel c4udi UD2_DBUS_INTERFACE_BLOCK c4name (Val.num 42))
        c4udi c4name FetchMode.FetchIfNeeded
      = (cacheStore c4cacheSentinel c4udi UD2_DBUS_INTERFACE_BLOCK c4name (Val.num 42),
         Val.num 42, []) :=
  ⟨(c4_fetch_if_needed_policy envGet42 envGet42 c4cacheSentinel c4udi c4name
      UD2_DBUS_INTERFACE_BLOCK).1 (by decide),
   (c4_fetch_if_needed_policy envGet42 envGet42 c4cacheSentinel c4udi c4name
      UD2_DBUS_INTERFACE_BLOCK).2.1 (by decide) (by decide)⟩

/-! ### C2: InterfacesRemoved -/

namespace QMap

theorem lookup_foldl_remove_of_none {α : Type u} (l : List String) (e : QMap α)
    (i : String) (h : lookup i e = none) :
    lookup i (l.foldl (fun e2 j => remove j e2) e) = none := by
  induction l generalizing e with
  | nil => exact h
  | cons j rest ih =>
    simp only [List.foldl]
    apply ih
    by_cases hj : i = j
    · subst hj
      exact lookup_remove_self i e
    · rw [lookup_remove_ne e hj]
      exact h

theorem lookup_foldl_remove_mem {α : Type u} (l : List String) (e : QMap α)
    (i : String) (h : i ∈ l) :
    lookup i (l.foldl (fun e2 j => remove j e2) e) = none := by
  induction l generalizing e with
  | nil => cases h
  | cons j rest ih =>
    simp only [List.foldl]
    by_cases hj : i = j
    · subst hj
      exact lookup_foldl_remove_of_none rest (remove i e) i (lookup_remove_self i e)
    · have hr : i ∈ rest := by
        cases h with
        | head => exact absurd rfl hj
        | tail _ hm => exact hm
      exact ih (remove j e) hr

end QMap

open UDisks2 UDisks2.Manager in
/-- C2: for a tracked identifier, InterfacesRemoved removes each named
interface from the snapshot; if the remaining set is empty, the slot emits
exactly one removed event and deletes the snapshot entry entirely; if
interfaces remain, it emits removed immediately followed by added for the
same identifier, with no other events. -/
theorem c2_interfaces_removed (cache : Cache) (udi : String)
    (interfaces : List String) (entry : VariantMapMap)
    (h1 : udi ≠ "") (h2 : qStartsWith udi UD2_DBUS_PATH_JOBS = false)
    (h3 : QMap.lookup udi cache = some entry) :
    (∀ i ∈ interfaces,
       QMap.lookup i (interfaces.foldl (fun e j => QMap.remove j e) entry) = none)
    ∧ (interfaces.foldl (fun e j => QMap.remove j e) entry = [] →
        slotInterfacesRemoved cache udi interfaces
          = (QMap.remove udi cache, [Event.removed udi])
        ∧ QMap.lookup udi (slotInterfacesRemoved cache udi interfaces).1 = none)
    ∧ (interfaces.foldl (fun e j => QMap.remove j e) entry ≠ [] →
        slotInterfacesRemoved cache udi interfaces
          = (QMap.insert udi (interfaces.foldl (fun e j => QMap.remove j e) entry) cache,
             [Event.removed udi, Event.added udi])) := by
  have hrun : slotInterfacesRemoved cache udi interfaces
      = (if QMap.isEmpty (interfaces.foldl (fun e j => QMap.remove j e) entry) then
           (QMap.remove udi cache, [Event.removed udi])
         else
           (QMap.insert udi (interfaces.foldl (fun e j => QMap.remove j e) entry) cache,
            [Event.removed udi, Event.added udi])) := by
    rw [slotInterfacesRemoved, if_neg h1]
    rw [h2]
    simp only [Bool.false_eq_true, if_false, h3]
  refine ⟨?_, ?_, ?_⟩
  · intro i hi
    exact QMap.lookup_foldl_remove_mem interfaces entry i hi
  · intro hempty
    have hisEmpty : QMap.isEmpty (interfaces.foldl (fun e j => QMap.remove j e) entry) = true := by
      rw [hempty]; rfl
    rw [hrun, if_pos hisEmpty]
    exact ⟨rfl, QMap.lookup_remove_self udi cache⟩
  · intro hne
    have hisEmpty : QMap.isEmpty (interfaces.foldl (fun e j => QMap.remove j e) entry) = false := by
      cases hfold : interfaces.foldl (fun e j => QMap.remove j e) entry with
      | nil => exact absurd hfold hne
      | cons p rest => rfl
    rw [hrun, hisEmpty]
    rfl

def c2udi : String := "/org/freedesktop/UDisks2/block_devices/sdb"
def c2ifaceFS : String := "org.freedesktop.UDisks2.Filesystem"

/-- A tracked device with Block and Filesystem interfaces. -/
def c2cacheTwo : UDisks2.Cache :=
  [(c2udi, [(UDisks2.UD2_DBUS_INTERFACE_BLOCK, []), (c2ifaceFS, [])])]

/-- A tracked device with only the Block interface. -/
def c2cacheOne : UDisks2.Cache :=
  [(c2udi, [(UDisks2.UD2_DBUS_INTERFACE_BLOCK, [])])]

open UDisks2 UDisks2.Manager in
/-- Witness for c2_interfaces_removed: removing Filesystem from a device
that keeps Block emits removed then added; removing Block from a device
with only Block emits a single removed and deletes the entry. -/
theorem c2_interfaces_removed_witness :
    slotInterfacesRemoved c2cacheTwo c2udi [c2ifaceFS]
      = (QMap.insert c2udi [(UD2_DBUS_INTERFACE_BLOCK, [])] c2cacheTwo,
         [Event.removed c2udi, Event.added c2udi])
    ∧ slotInterfacesRemoved c2cacheOne c2udi [UD2_DBUS_INTERFACE_BLOCK]
      = (QMap.remove c2udi c2cacheOne, [Event.removed c2udi]) :=
  ⟨(c2_interfaces_removed c2cacheTwo c2udi [c2ifaceFS]
      [(UD2_DBUS_INTERFACE_BLOCK, []), (c2ifaceFS, [])]
      (by decide) (by decide) (by decide)).2.2 (by decide),
   ((c2_interfaces_removed c2cacheOne c2udi [UD2_DBUS_INTERFACE_BLOCK]
      [(UD2_DBUS_INTERFACE_BLOCK, [])]
      (by decide) (by decide) (by decide)).2.1 (by decide)).1⟩

/-! ### C1, C7, C8: the frontend registry -/

open Frontend in
/-- C1: Handle identity. For a non-empty identifier: a lookup that finds a
registered handle returns exactly that handle with the registry unchanged;
otherwise find creates one handle, resolves its backing object through the
prefix-routed createBackendObject, caches it in the identity map even when
resolution failed (none), and a repeated find then returns that same
handle without touching the registry, so at most one live handle per
identifier exists. -/
theorem c1_handle_identity {σ : Type} (backends : List (Backend σ))
    (st : RegistryState σ) (udi : String) (h : udi ≠ "") :
    (∀ dev, QMap.lookup udi st.devicesMap = some dev →
        findRegisteredDevice backends st udi = (st, dev))
    ∧ (QMap.lookup udi st.devicesMap = none →
        (findRegisteredDevice backends st udi).2.backendObject
            = createBackendObject backends udi
        ∧ QMap.lookup udi (findRegisteredDevice backends st udi).1.devicesMap
            = some (findRegisteredDevice backends st udi).2
        ∧ findRegisteredDevice backends (findRegisteredDevice backends st udi).1 udi
            = ((findRegisteredDevice backends st udi).1,
               (findRegisteredDevice backends st udi).2)) := by
  constructor
  · intro dev hdev
    simp only [findRegisteredDevice, if_neg h, hdev]
  · intro hnone
    have hfind : findRegisteredDevice backends st udi
        = ({ devicesMap := QMap.insert udi
               { hid := st.nextId, backendObject := createBackendObject backends udi }
               st.devicesMap,
             nextId := st.nextId + 1 },
           { hid := st.nextId, backendObject := createBackendObject backends udi }) := by
      simp only [findRegisteredDevice, if_neg h, hnone]
    refine ⟨by rw [hfind], ?_, ?_⟩
    · rw [hfind]
      exact QMap.lookup_insert_self ..
    · rw [hfind]
      simp only [findRegisteredDevice, if_neg h, QMap.lookup_insert_self]

def c1udi : String := "/org/freedesktop/UDisks2/block_devices/sdc"

open Frontend in
/-- Witness for c1_handle_identity: first find on a fresh registry with no
backends caches a handle with a null backing object; a second find returns
the same handle and the same state. -/
theorem c1_handle_identity_witness :
    (findRegisteredDevice ([] : List (Backend Nat)) initState c1udi).2.backendObject = none
    ∧ QMap.lookup c1udi
        (findRegisteredDevice ([] : List (Backend Nat)) initState c1udi).1.devicesMap
      = some (findRegisteredDevice ([] : List (Backend Nat)) initState c1udi).2
    ∧ findRegisteredDevice ([] : List (Backend Nat))
        (findRegisteredDevice ([] : List (Backend Nat)) initState c1udi).1 c1udi
      = ((findRegisteredDevice ([] : List (Backend Nat)) initState c1udi).1,
         (findRegisteredDevice ([] : List (Backend Nat)) initState c1udi).2) :=
  (c1_handle_identity ([] : List (Backend Nat)) initState c1udi (by decide)).2 (by decide)

open Frontend in
/-- C7: processing a backend add event re-emits exactly one add event to
subscribers in all cases; when a registered handle exists with a null
backing object it is re-resolved through the prefix-routed
createBackendObject and the handler asserts (Q_ASSERT) that the
re-resolved object is non-null; a handle with a live backing object and an
unknown identifier leave the registry untouched. -/
theorem c7_backend_device_added {σ : Type} (backends : List (Backend σ))
    (st : RegistryState σ) (udi : String) :
    (kDeviceAdded backends st udi).2.1 = [RegEvent.deviceAdded udi]
    ∧ (∀ dev, QMap.lookup udi st.devicesMap = some dev → dev.backendObject = none →
        QMap.lookup udi (kDeviceAdded backends st udi).1.devicesMap
          = some { hid := dev.hid, backendObject := createBackendObject backends udi }
        ∧ (kDeviceAdded backends st udi).2.2
          = [!(createBackendObject backends udi).isNone])
    ∧ (∀ dev, QMap.lookup udi st.devicesMap = some dev → dev.backendObject ≠ none →
        (kDeviceAdded backends st udi).1 = st)
    ∧ (QMap.lookup udi st.devicesMap = none → (kDeviceAdded backends st udi).1 = st) := by
  refine ⟨?_, ?_, ?_, ?_⟩
  · cases hl : QMap.lookup udi st.devicesMap with
    | none => simp [kDeviceAdded, hl]
    | some dev =>
      by_cases hb : dev.backendObject.isNone
      · simp [kDeviceAdded, hl, hb]
      · simp [kDeviceAdded, hl, hb]
  · intro dev hl hb
    have hb2 : dev.backendObject.isNone = true := by rw [hb]; rfl
    simp only [kDeviceAdded, hl, hb2, if_true]
    exact ⟨QMap.lookup_insert_self .., trivial⟩
  · intro dev hl hb
    have hb2 : dev.backendObject.isNone = false := by
      cases hob : dev.backendObject with
      | none => exact absurd hob hb
      | some x => rfl
    simp [kDeviceAdded, hl, hb2]
  · intro hl
    simp [kDeviceAdded, hl]

/-- A concrete backend for the frontend witnesses. -/
def w7backend : Frontend.Backend Nat :=
  { udiPfx := "/u", createDevice := fun _ => some 5 }

def w7udi : String := "/u/dev"

/-- A registry with one registered handle for w7udi whose backing object
is null. -/
def w7st : Frontend.RegistryState Nat :=
  { devicesMap := [(w7udi, { hid := 3, backendObject := none })], nextId := 4 }

open Frontend in
/-- Witness for c7_backend_device_added: the null-backed handle is
re-resolved to the backend object 5, the assert condition evaluates true,
and the add event is re-emitted. -/
theorem c7_backend_device_added_witness :
    (kDeviceAdded [w7backend] w7st w7udi).2.1 = [RegEvent.deviceAdded w7udi]
    ∧ QMap.lookup w7udi (kDeviceAdded [w7backend] w7st w7udi).1.devicesMap
        = some { hid := 3, backendObject := some 5 }
    ∧ (kDeviceAdded [w7backend] w7st w7udi).2.2 = [true] :=
  ⟨(c7_backend_device_added [w7backend] w7st w7udi).1,
   ((c7_backend_device_added [w7backend] w7st w7udi).2.1
      { hid := 3, backendObject := none } (by decide) (by decide)).1,
   ((c7_backend_device_added [w7backend] w7st w7udi).2.1
      { hid := 3, backendObject := none } (by decide) (by decide)).2⟩

open Frontend in
/-- C8: processing a backend removal event re-emits exactly one removal
event to subscribers in all cases; when a registered handle exists, its
backing object is set to null while the handle itself (same identity)
stays in the identity map; without a handle the registry is untouched. -/
theorem c8_backend_device_removed {σ : Type} (st : RegistryState σ) (udi : String) :
    (kDeviceRemoved st udi).2.1 = [RegEvent.deviceRemoved udi]
    ∧ (∀ dev, QMap.lookup udi st.devicesMap = some dev →
        QMap.lookup udi (kDeviceRemoved st udi).1.devicesMap
          = some { hid := dev.hid, backendObject := (none : Option σ) })
    ∧ (QMap.lookup udi st.devicesMap = none → (kDeviceRemoved st udi).1 = st) := by
  refine ⟨?_, ?_, ?_⟩
  · cases hl : QMap.lookup udi st.devicesMap with
    | none => simp [kDeviceRemoved, hl]
    | some dev => simp [kDeviceRemoved, hl]
  · intro dev hl
    simp only [kDeviceRemoved, hl]
    exact QMap.lookup_insert_self ..
  · intro hl
    simp [kDeviceRemoved, hl]

/-- A registry with one registered handle for w7udi with a live backing
object. -/
def w8st : Frontend.RegistryState Nat :=
  { devicesMap := [(w7udi, { hid := 3, backendObject := some 7 })], nextId := 4 }

open Frontend in
/-- Witness for c8_backend_device_removed: the removal event is re-emitted
and the handle survives in the map with its backing object nulled out. -/
theorem c8_backend_device_removed_witness :
    (kDeviceRemoved w8st w7udi).2.1 = [RegEvent.deviceRemoved w7udi]
    ∧ QMap.lookup w7udi (kDeviceRemoved w8st w7udi).1.devicesMap
        = some { hid := 3, backendObject := (none : Option Nat) } :=
  ⟨(c8_backend_device_removed w8st w7udi).1,
   (c8_backend_device_removed w8st w7udi).2.1
     { hid := 3, backendObject := some 7 } (by decide)⟩

/-! ### C9: invalid predicate strings -/

/-- C9: for every predicate string the parser reports invalid, the string
form of listFromQuery returns an empty device list (and, the embedding
being total, raises no error). The Predicate parser itself lives outside
the verified sources and is abstracted by the `parse` argument. -/
theorem c9_invalid_predicate_empty_query (parse : String → Frontend.Predicate)
    (backends : List Frontend.QueryBackend) (s parentUdi : String)
    (h : (parse s).valid = false) :
    Frontend.listFromQueryString parse backends s parentUdi = [] := by
  simp [Frontend.listFromQueryString, h]

/-- A parser that rejects every string, as Predicate::fromString does on
unparseable input. -/
def w9parse : String → Frontend.Predicate :=
  fun _ => { valid := false, usedTypes := [], matchesDev := fun _ => false }

/-- A query backend with one device, to show the empty result does not
come from an empty world. -/
def w9backend : Frontend.QueryBackend :=
  { supported := [1], allDevices := [w7udi], devicesFromQuery := fun _ _ => [w7udi] }

def w9str : String := "not a predicate"

/-- Witness for c9_invalid_predicate_empty_query. -/
theorem c9_invalid_predicate_empty_query_witness :
    Frontend.listFromQueryString w9parse [w9backend] w9str w7udi = [] :=
  c9_invalid_predicate_empty_query w9parse [w9backend] w9str w7udi (by decide)

/-! ### C5: the media-change heuristic -/

namespace QMap

theorem insert_ne_nil {α : Type u} (k : String) (v : α) (m : QMap α) :
    insert k v m ≠ [] := by
  cases m with
  | nil => simp [insert]
  | cons p rest =>
    obtain ⟨k1, v1⟩ := p
    by_cases h : k1 = k <;> simp [insert, h]

theorem contains_ne_nil {α : Type u} (k : String) (m : QMap α)
    (h : contains k m = true) : m ≠ [] := by
  cases m with
  | nil => simp [contains, lookup] at h
  | cons p rest => simp

end QMap

namespace UDisks2
namespace Manager

theorem foldl_insert_unit_ne_nil (l : List (String × Val)) (m1 : QMap Unit)
    (h : l ≠ []) :
    l.foldl (fun m p => QMap.insert p.1 () m) m1 ≠ [] := by
  induction l generalizing m1 with
  | nil => exact absurd rfl h
  | cons p rest ih =>
    simp only [List.foldl]
    by_cases hr : rest = []
    · subst hr
      exact QMap.insert_ne_nil p.1 () m1
    · exact ih (QMap.insert p.1 () m1) hr

/-- The changeMap of a PropertiesChanged with a non-empty changed map is
non-empty. -/
theorem mkChangeMap_ne_nil (changed : QMap Val) (invalidated : List String)
    (h : changed ≠ []) : mkChangeMap changed invalidated ≠ [] := by
  exact foldl_insert_unit_ne_nil changed _ h

end Manager
end UDisks2

/-- A D-Bus world where the Device helper reports a possible optical
disc. -/
def envOpt : UDisks2.DBusEnv :=
  { envFail with mightBeOpticalDisc := fun _ => true }

open UDisks2 UDisks2.Manager in
/-- C5: Media heuristic. For a PropertiesChanged on the Block interface
whose changed map includes Size, on a device that might be an optical
disc: when the identifier is untracked and the new size is non-zero, the
slot creates a minimal snapshot entry from the changed properties only and
emits exactly one added event; when the identifier is tracked and the new
size is zero, it emits removed (after the ordinary propertyChanged of the
merge phase) and deletes the snapshot entry. -/
theorem c5_media_heuristic (env : DBusEnv) (cache : Cache) (udi : String)
    (changed : QMap Val) (invalidated : List String)
    (h1 : udi ≠ "") (h2 : qStartsWith udi UD2_UDI_DISKS_PREFIX = true)
    (h3 : qStartsWith udi UD2_DBUS_PATH_JOBS = false)
    (h4 : QMap.contains propSize changed = true)
    (h5 : env.mightBeOpticalDisc udi = true) :
    (QMap.lookup udi cache = none →
       0 < (QMap.valueD propSize Val.invalid changed).toULongLong →
       slotPropertiesChanged env cache udi UD2_DBUS_INTERFACE_BLOCK changed invalidated
         = (QMap.insert udi (QMap.insert udi changed QMap.empty) cache,
            [Event.added udi]))
    ∧ (∀ entry, QMap.lookup udi cache = some entry →
       (QMap.valueD propSize Val.invalid changed).toULongLong = 0 →
       (slotPropertiesChanged env cache udi UD2_DBUS_INTERFACE_BLOCK changed invalidated).2
         = [Event.propertyChanged udi (mkChangeMap changed invalidated),
            Event.removed udi]
       ∧ QMap.lookup udi
           (slotPropertiesChanged env cache udi UD2_DBUS_INTERFACE_BLOCK changed invalidated).1
         = none) := by
  have hguard : (decide (udi = "") || !qStartsWith udi UD2_UDI_DISKS_PREFIX
      || qStartsWith udi UD2_DBUS_PATH_JOBS) = false := by
    rw [h2, h3, decide_eq_false h1]
    rfl
  constructor
  · intro hnone hsize
    have hknown : QMap.contains udi cache = false :=
      (QMap.contains_eq_false_iff udi cache).mpr hnone
    rw [slotPropertiesChanged]
    rw [hguard]
    simp only [Bool.false_eq_true, if_false, hknown, hnone]
    simp [h4, h5, hsize]
  · intro entry hentry hsize
    have hknown : QMap.contains udi cache = true := by
      rw [QMap.contains, hentry]
      rfl
    have hch : changed ≠ [] := QMap.contains_ne_nil propSize changed h4
    have hcm : QMap.isEmpty (mkChangeMap changed invalidated) = false := by
      cases hmk : mkChangeMap changed invalidated with
      | nil => exact absurd hmk (mkChangeMap_ne_nil changed invalidated hch)
      | cons p rest => rfl
    rw [slotPropertiesChanged]
    rw [hguard]
    simp only [Bool.false_eq_true, if_false, hknown, hentry, hcm]
    simp [h4, h5, hsize]

def c5udi : String := "/org/freedesktop/UDisks2/block_devices/sr0"

/-- Size going 0 → 512: an inserted medium. -/
def c5changedIn : QMap UDisks2.Val := [(UDisks2.propSize, UDisks2.Val.num 512)]

/-- Size going to 0: a removed medium. -/
def c5changedOut : QMap UDisks2.Val := [(UDisks2.propSize, UDisks2.Val.num 0)]

/-- A cache tracking the optical device with a Block interface. -/
def c5cache : UDisks2.Cache := [(c5udi, [(UDisks2.UD2_DBUS_INTERFACE_BLOCK, [])])]

open UDisks2 UDisks2.Manager in
/-- Witness for c5_media_heuristic: a 512 size on an untracked optical
device adds a minimal entry and emits added; a 0 size on the tracked one
emits propertyChanged then removed and purges the entry. -/
theorem c5_media_heuristic_witness :
    slotPropertiesChanged envOpt QMap.empty c5udi UD2_DBUS_INTERFACE_BLOCK c5changedIn []
      = (QMap.insert c5udi (QMap.insert c5udi c5changedIn QMap.empty) QMap.empty,
         [Event.added c5udi])
    ∧ (slotPropertiesChanged envOpt c5cache c5udi UD2_DBUS_INTERFACE_BLOCK c5changedOut []).2
      = [Event.propertyChanged c5udi (mkChangeMap c5changedOut []), Event.removed c5udi]
    ∧ QMap.lookup c5udi
        (slotPropertiesChanged envOpt c5cache c5udi UD2_DBUS_INTERFACE_BLOCK c5changedOut []).1
      = none :=
  ⟨(c5_media_heuristic envOpt QMap.empty c5udi c5changedIn []
      (by decide) (by decide) (by decide) (by decide) (by decide)).1 (by decide) (by decide),
   ((c5_media_heuristic envOpt c5cache c5udi c5changedOut []
      (by decide) (by decide) (by decide) (by decide) (by decide)).2
      [(UD2_DBUS_INTERFACE_BLOCK, [])] (by decide) (by decide)).1,
   ((c5_media_heuristic envOpt c5cache c5udi c5changedOut []
      (by decide) (by decide) (by decide) (by decide) (by decide)).2
      [(UD2_DBUS_INTERFACE_BLOCK, [])] (by decide) (by decide)).2⟩

/-! ### C3: InterfacesAdded -/

namespace QMap

theorem lookup_eq_none_of_not_mem_keys {α : Type u} (k : String) (m : QMap α)
    (h : ¬ k ∈ keys m) : lookup k m = none := by
  induction m with
  | nil => rfl
  | cons p rest ih =>
    obtain ⟨k1, v1⟩ := p
    simp only [keys, List.map_cons, List.mem_cons] at h
    push_neg at h
    rw [lookup, if_neg (fun hh => h.1 hh.symm)]
    exact ih h.2

end QMap

namespace UDisks2
namespace Manager

theorem mergeSupplied_lookup_not_service (im : VariantMapMap) (e0 : VariantMapMap)
    (k : String) (h : qStartsWith k UD2_DBUS_SERVICE = false) :
    QMap.lookup k (mergeSupplied im e0) = QMap.lookup k e0 := by
  induction im generalizing e0 with
  | nil => rfl
  | cons p rest ih =>
    simp only [mergeSupplied, List.foldl] at ih ⊢
    rw [ih]
    by_cases hp : qStartsWith p.1 UD2_DBUS_SERVICE = true
    · rw [if_pos hp]
      apply QMap.lookup_insert_ne
      intro hk
      subst hk
      rw [h] at hp
      cases hp
    · rw [if_neg hp]

theorem mergeSupplied_lookup_not_mem_keys (im : VariantMapMap) (e0 : VariantMapMap)
    (k : String) (h : ¬ k ∈ QMap.keys im) :
    QMap.lookup k (mergeSupplied im e0) = QMap.lookup k e0 := by
  induction im generalizing e0 with
  | nil => rfl
  | cons p rest ih =>
    simp only [QMap.keys, List.map_cons, List.mem_cons] at h
    push_neg at h
    simp only [mergeSupplied, List.foldl] at ih ⊢
    rw [ih _ (fun hm => h.2 hm)]
    by_cases hp : qStartsWith p.1 UD2_DBUS_SERVICE = true
    · rw [if_pos hp]
      exact QMap.lookup_insert_ne _ _ h.1
    · rw [if_neg hp]

theorem mergeSupplied_lookup_mem (im : VariantMapMap) (e0 : VariantMapMap)
    (k : String) (v : QMap Val)
    (hv : QMap.lookup k im = some v) (hp : qStartsWith k UD2_DBUS_SERVICE = true)
    (hnd : (QMap.keys im).Nodup) :
    QMap.lookup k (mergeSupplied im e0) = some v := by
  induction im generalizing e0 with
  | nil => cases hv
  | cons p rest ih =>
    obtain ⟨k1, v1⟩ := p
    have hkeys : QMap.keys ((k1, v1) :: rest) = k1 :: QMap.keys rest := rfl
    rw [hkeys] at hnd
    have hnd2 := List.nodup_cons.mp hnd
    simp only [mergeSupplied, List.foldl] at ih ⊢
    by_cases hk : k1 = k
    · subst hk
      rw [QMap.lookup, if_pos rfl] at hv
      injection hv with hv2
      rw [if_pos hp]
      have hpres := mergeSupplied_lookup_not_mem_keys rest (QMap.insert k1 v1 e0) k1 hnd2.1
      simp only [mergeSupplied] at hpres
      rw [hpres, QMap.lookup_insert_self, hv2]
    · rw [QMap.lookup, if_neg hk] at hv
      exact ih _ hv hnd2.2

theorem refetchOld_lookup_not_mem (env : DBusEnv) (udi : String) (old : List String)
    (e0 : VariantMapMap) (k : String) (h : ¬ k ∈ old) :
    QMap.lookup k (refetchOld env udi old e0) = QMap.lookup k e0 := by
  induction old generalizing e0 with
  | nil => rfl
  | cons i rest ih =>
    simp only [List.mem_cons] at h
    push_neg at h
    simp only [refetchOld, List.foldl] at ih ⊢
    rw [ih _ (fun hm => h.2 hm)]
    cases env.getAll udi i with
    | none => rfl
    | some m => exact QMap.lookup_insert_ne _ _ h.1

/-- When the GetAll reply for an interface is invalid, the re-fetch loop
leaves that interface untouched, whether or not it is in the list. -/
theorem refetchOld_lookup_getAll_none (env : DBusEnv) (udi : String)
    (old : List String) (e0 : VariantMapMap) (k : String)
    (hg : env.getAll udi k = none) :
    QMap.lookup k (refetchOld env udi old e0) = QMap.lookup k e0 := by
  induction old generalizing e0 with
  | nil => rfl
  | cons i rest ih =>
    simp only [refetchOld, List.foldl] at ih ⊢
    by_cases hk : i = k
    · subst hk
      rw [hg]
      exact ih e0
    · cases env.getAll udi i with
      | none => exact ih e0
      | some m =>
        rw [ih (QMap.insert i m e0)]
        exact QMap.lookup_insert_ne _ _ (fun hh => hk hh.symm)

theorem refetchOld_lookup_mem (env : DBusEnv) (udi : String) (old : List String)
    (e0 : VariantMapMap) (k : String) (M : QMap Val)
    (hm : k ∈ old) (hnd : old.Nodup) (hg : env.getAll udi k = some M) :
    QMap.lookup k (refetchOld env udi old e0) = some M := by
  induction old generalizing e0 with
  | nil => cases hm
  | cons i rest ih =>
    have hnd2 := List.nodup_cons.mp hnd
    simp only [refetchOld, List.foldl] at ih ⊢
    by_cases hk : i = k
    · subst hk
      rw [hg]
      have hpres := refetchOld_lookup_not_mem env udi rest (QMap.insert i M e0) i hnd2.1
      simp only [refetchOld] at hpres
      rw [hpres, QMap.lookup_insert_self]
    · have hr : k ∈ rest := by
        cases hm with
        | head => exact absurd rfl hk
        | tail _ hm2 => exact hm2
      exact ih _ hr hnd2.2

theorem mem_of_mem_removeOne (x k : String) (l : List String)
    (h : k ∈ removeOne x l) : k ∈ l := by
  induction l with
  | nil => cases h
  | cons y rest ih =>
    by_cases hy : y = x
    · rw [removeOne, if_pos hy] at h
      exact List.mem_cons_of_mem y h
    · rw [removeOne, if_neg hy] at h
      cases h with
      | head => exact List.mem_cons_self ..
      | tail _ hm => exact List.mem_cons_of_mem y (ih hm)

theorem nodup_removeOne (x : String) (l : List String) (h : l.Nodup) :
    (removeOne x l).Nodup := by
  induction l with
  | nil => exact h
  | cons y rest ih =>
    have h2 := List.nodup_cons.mp h
    by_cases hy : y = x
    · rw [removeOne, if_pos hy]
      exact h2.2
    · rw [removeOne, if_neg hy]
      exact List.nodup_cons.mpr
        ⟨fun hm => h2.1 (mem_of_mem_removeOne x y rest hm), ih h2.2⟩

theorem not_mem_removeOne_self (x : String) (l : List String) (h : l.Nodup) :
    ¬ x ∈ removeOne x l := by
  induction l with
  | nil => intro hm; cases hm
  | cons y rest ih =>
    have h2 := List.nodup_cons.mp h
    by_cases hy : y = x
    · rw [removeOne, if_pos hy]
      subst hy
      exact h2.1
    · rw [removeOne, if_neg hy]
      intro hm
      cases hm with
      | head => exact hy rfl
      | tail _ hm2 => exact ih h2.2 hm2

/-- slotInterfacesAdded outside the jobs namespace: closed form. -/
theorem slotInterfacesAdded_eq (env : DBusEnv) (cache : Cache) (udi : String)
    (im : VariantMapMap) (hjobs : qStartsWith udi UD2_DBUS_PATH_JOBS = false) :
    slotInterfacesAdded env cache udi im
      = (QMap.insert udi
           (refetchOld env udi
             (removeOne UD2_DBUS_INTERFACE_BLOCK
               (QMap.keys (QMap.valueD udi QMap.empty cache)))
             (mergeSupplied im (QMap.valueD udi QMap.empty cache)))
           cache,
         if (!(QMap.contains udi cache) || QMap.contains UD2_DBUS_INTERFACE_FILESYSTEM im)
             = true
         then [Event.added udi] else []) := by
  rw [slotInterfacesAdded, hjobs]
  simp only [Bool.false_eq_true, if_false]

end Manager
end UDisks2

def c3udi : String := "/org/freedesktop/UDisks2/block_devices/sdx"

/-- A supplied interface name outside the UDisks2 service namespace. -/
def c3foreign : String := "org.example.Foo"

def c3im : UDisks2.VariantMapMap := [(c3foreign, [])]

open UDisks2 UDisks2.Manager in
/-- C3 counterexample: an InterfacesAdded carrying only an interface whose
name lies outside the UDisks2 service namespace is processed (the
identifier is new, so an added event fires), yet the supplied interface is
not merged into the snapshot, refuting the claim that the supplied
interfaces are merged. -/
theorem c3_counterexample :
    (slotInterfacesAdded envFail QMap.empty c3udi c3im).2 = [Event.added c3udi]
    ∧ QMap.lookup c3foreign
        (QMap.valueD c3udi QMap.empty
          (slotInterfacesAdded envFail QMap.empty c3udi c3im).1) = none := by
  constructor
  · decide
  · decide

open UDisks2 UDisks2.Manager in
/-- C3 (amended): outside the jobs namespace, InterfacesAdded merges the
supplied interfaces that lie in the UDisks2 service namespace into the
snapshot (others are ignored) — for new and for already-known identifiers
alike, the supplied properties ending up in the snapshot whenever the
interface is not among the re-fetched previously known ones, and likewise
when its re-fetch fails — re-fetches every previously known interface
except Block, replacing its cached properties wholesale when the fetch
succeeds and leaving them untouched (merged, and stale where not supplied)
when it fails, and emits an added event iff the identifier was new to the
cache or the supplied interface set has the Filesystem interface. -/
theorem c3_interfaces_added (env : DBusEnv) (cache : Cache) (udi : String)
    (im : VariantMapMap) (hjobs : qStartsWith udi UD2_DBUS_PATH_JOBS = false) :
    (QMap.contains udi cache = false ∨ QMap.contains UD2_DBUS_INTERFACE_FILESYSTEM im = true →
       (slotInterfacesAdded env cache udi im).2 = [Event.added udi])
    ∧ (QMap.contains udi cache = true → QMap.contains UD2_DBUS_INTERFACE_FILESYSTEM im = false →
       (slotInterfacesAdded env cache udi im).2 = [])
    ∧ (∀ k, qStartsWith k UD2_DBUS_SERVICE = false →
        ¬ k ∈ QMap.keys (QMap.valueD udi QMap.empty cache) →
        QMap.lookup k
          (QMap.valueD udi QMap.empty (slotInterfacesAdded env cache udi im).1) = none)
    ∧ (QMap.lookup udi cache = none →
        ∀ k v, QMap.lookup k im = some v → qStartsWith k UD2_DBUS_SERVICE = true →
        (QMap.keys im).Nodup →
        QMap.lookup k
          (QMap.valueD udi QMap.empty (slotInterfacesAdded env cache udi im).1) = some v)
    ∧ (∀ entry, QMap.lookup udi cache = some entry → (QMap.keys entry).Nodup →
        ∀ k M, k ∈ removeOne UD2_DBUS_INTERFACE_BLOCK (QMap.keys entry) →
        env.getAll udi k = some M →
        QMap.lookup k
          (QMap.valueD udi QMap.empty (slotInterfacesAdded env cache udi im).1) = some M)
    ∧ (∀ entry, QMap.lookup udi cache = some entry → (QMap.keys entry).Nodup →
        QMap.lookup UD2_DBUS_INTERFACE_BLOCK
            (QMap.valueD udi QMap.empty (slotInterfacesAdded env cache udi im).1)
          = QMap.lookup UD2_DBUS_INTERFACE_BLOCK (mergeSupplied im entry))
    ∧ (∀ k v, QMap.lookup k im = some v → qStartsWith k UD2_DBUS_SERVICE = true →
        (QMap.keys im).Nodup →
        ¬ k ∈ removeOne UD2_DBUS_INTERFACE_BLOCK
            (QMap.keys (QMap.valueD udi QMap.empty cache)) →
        QMap.lookup k
          (QMap.valueD udi QMap.empty (slotInterfacesAdded env cache udi im).1) = some v)
    ∧ (∀ k, env.getAll udi k = none →
        QMap.lookup k
            (QMap.valueD udi QMap.empty (slotInterfacesAdded env cache udi im).1)
          = QMap.lookup k (mergeSupplied im (QMap.valueD udi QMap.empty cache)))
    ∧ (∀ entry, QMap.lookup udi cache = some entry →
        ∀ k, env.getAll udi k = none → ¬ k ∈ QMap.keys im →
        QMap.lookup k
            (QMap.valueD udi QMap.empty (slotInterfacesAdded env cache udi im).1)
          = QMap.lookup k entry) := by
  have hres := slotInterfacesAdded_eq env cache udi im hjobs
  have hval : QMap.valueD udi QMap.empty (slotInterfacesAdded env cache udi im).1
      = refetchOld env udi
          (removeOne UD2_DBUS_INTERFACE_BLOCK
            (QMap.keys (QMap.valueD udi QMap.empty cache)))
          (mergeSupplied im (QMap.valueD udi QMap.empty cache)) := by
    rw [hres]
    simp [QMap.valueD, QMap.lookup_insert_self]
  refine ⟨?_, ?_, ?_, ?_, ?_, ?_, ?_, ?_, ?_⟩
  · intro h
    rw [hres]
    cases h with
    | inl h => simp [h]
    | inr h => simp [h]
  · intro h hfs
    rw [hres]
    simp [h, hfs]
  · intro k hks hkm
    rw [hval]
    have hnot : ¬ k ∈ removeOne UD2_DBUS_INTERFACE_BLOCK
        (QMap.keys (QMap.valueD udi QMap.empty cache)) :=
      fun hm => hkm (mem_of_mem_removeOne _ _ _ hm)
    rw [refetchOld_lookup_not_mem _ _ _ _ _ hnot,
      mergeSupplied_lookup_not_service _ _ _ hks]
    exact QMap.lookup_eq_none_of_not_mem_keys _ _ hkm
  · intro hnone k v hkv hkp hnd
    rw [hval]
    have he0 : QMap.valueD udi QMap.empty cache = QMap.empty := by
      rw [QMap.valueD, hnone]
      rfl
    rw [he0]
    exact mergeSupplied_lookup_mem im QMap.empty k v hkv hkp hnd
  · intro entry hentry hnd k M hkold hg
    rw [hval]
    have he0 : QMap.valueD udi QMap.empty cache = entry := by
      rw [QMap.valueD, hentry]
      rfl
    rw [he0]
    exact refetchOld_lookup_mem env udi _ _ k M hkold
      (nodup_removeOne _ _ hnd) hg
  · intro entry hentry hnd
    rw [hval]
    have he0 : QMap.valueD udi QMap.empty cache = entry := by
      rw [QMap.valueD, hentry]
      rfl
    rw [he0]
    exact refetchOld_lookup_not_mem env udi _ _ _
      (not_mem_removeOne_self _ _ hnd)
  · intro k v hkv hkp hnd hnot
    rw [hval]
    rw [refetchOld_lookup_not_mem _ _ _ _ _ hnot]
    exact mergeSupplied_lookup_mem _ _ k v hkv hkp hnd
  · intro k hg
    rw [hval]
    exact refetchOld_lookup_getAll_none _ _ _ _ _ hg
  · intro entry hentry k hg hkim
    rw [hval]
    have he0 : QMap.valueD udi QMap.empty cache = entry := by
      rw [QMap.valueD, hentry]
      rfl
    rw [he0, refetchOld_lookup_getAll_none _ _ _ _ _ hg]
    exact mergeSupplied_lookup_not_mem_keys im entry k hkim

def w3udi : String := "/org/freedesktop/UDisks2/block_devices/sdw"

/-- A property map fetched by the GetAll re-fetch. -/
def w3fetched : QMap UDisks2.Val := [("FreshProp", UDisks2.Val.num 3)]

/-- A D-Bus world whose GetAll always succeeds with w3fetched. -/
def envGetAll : UDisks2.DBusEnv :=
  { envFail with getAll := fun _ _ => some w3fetched }

/-- The previously known snapshot entry: Block plus Filesystem. -/
def w3entry : UDisks2.VariantMapMap :=
  [(UDisks2.UD2_DBUS_INTERFACE_BLOCK, [(UDisks2.propSize, UDisks2.Val.num 1)]),
   (c2ifaceFS, [])]

def w3cache : UDisks2.Cache := [(w3udi, w3entry)]

/-- The properties supplied for the Filesystem interface. -/
def w3fsProps : QMap UDisks2.Val := [("MountPoints", UDisks2.Val.num 2)]

/-- The newly supplied interfaces: Filesystem with one property. -/
def w3im : UDisks2.VariantMapMap := [(c2ifaceFS, w3fsProps)]

def w3udi2 : String := "/org/freedesktop/UDisks2/block_devices/sdv"

/-- A snapshot entry that knows only the Block interface (the two-stage
device before its Filesystem appears). -/
def w3entryB : UDisks2.VariantMapMap :=
  [(UDisks2.UD2_DBUS_INTERFACE_BLOCK, [(UDisks2.propSize, UDisks2.Val.num 1)])]

def w3cacheB : UDisks2.Cache := [(w3udi2, w3entryB)]

open UDisks2 UDisks2.Manager in
/-- Witness for c3_interfaces_added: on a known device gaining Filesystem
with a working GetAll, the added event fires (Filesystem supplied), the
previously known Filesystem interface ends up wholesale-replaced by the
GetAll reply, and Block keeps its merged (non-refetched) properties; on a
known device that had only Block (the two-stage appearance), and also with
every GetAll failing, the supplied Filesystem properties are merged into
the snapshot; and with GetAll failing on the richer device, the
previously known, unsupplied Block interface keeps its stale cached
properties untouched. -/
theorem c3_interfaces_added_witness :
    (slotInterfacesAdded envGetAll w3cache w3udi w3im).2 = [Event.added w3udi]
    ∧ QMap.lookup c2ifaceFS
        (QMap.valueD w3udi QMap.empty (slotInterfacesAdded envGetAll w3cache w3udi w3im).1)
      = some w3fetched
    ∧ QMap.lookup UD2_DBUS_INTERFACE_BLOCK
        (QMap.valueD w3udi QMap.empty (slotInterfacesAdded envGetAll w3cache w3udi w3im).1)
      = QMap.lookup UD2_DBUS_INTERFACE_BLOCK (mergeSupplied w3im w3entry)
    ∧ QMap.lookup c2ifaceFS
        (QMap.valueD w3udi2 QMap.empty (slotInterfacesAdded envFail w3cacheB w3udi2 w3im).1)
      = some w3fsProps
    ∧ QMap.lookup UD2_DBUS_INTERFACE_BLOCK
        (QMap.valueD w3udi QMap.empty (slotInterfacesAdded envFail w3cache w3udi w3im).1)
      = QMap.lookup UD2_DBUS_INTERFACE_BLOCK w3entry :=
  ⟨(c3_interfaces_added envGetAll w3cache w3udi w3im (by decide)).1 (Or.inr (by decide)),
   (c3_interfaces_added envGetAll w3cache w3udi w3im (by decide)).2.2.2.2.1
     w3entry (by decide) (by decide) c2ifaceFS w3fetched (by decide) (by decide),
   (c3_interfaces_added envGetAll w3cache w3udi w3im (by decide)).2.2.2.2.2.1
     w3entry (by decide) (by decide),
   (c3_interfaces_added envFail w3cacheB w3udi2 w3im (by decide)).2.2.2.2.2.2.1
     c2ifaceFS w3fsProps (by decide) (by decide) (by decide) (by decide),
   (c3_interfaces_added envFail w3cache w3udi w3im (by decide)).2.2.2.2.2.2.2.2
     w3entry (by decide) UD2_DBUS_INTERFACE_BLOCK (by decide) (by decide)⟩

/-! ### C10: the removal-handler non-null assertion -/

def c10sda : String := "/org/freedesktop/UDisks2/block_devices/sda"
def c10sdb : String := "/org/freedesktop/UDisks2/block_devices/sdb"

/-- A D-Bus world in which sda is already among the managed objects (its
InterfacesAdded signal has not yet been delivered). -/
def envDrift : UDisks2.DBusEnv :=
  { envFail with
    managedObjects := some [(c10sda, [(UDisks2.UD2_DBUS_INTERFACE_BLOCK, [])])] }

/-- The failing trace: (1) a consumer finds sda while the bus has no
devices, registering a handle with a null backing object; (2) a consumer
finds sdb, and the empty backend cache resyncs against the drifted bus,
silently learning sda without any deviceAdded signal; (3) sda's
InterfacesRemoved arrives, the backend emits deviceRemoved, and
_k_deviceRemoved runs on the still-null handle. -/
def c10trace : List Combined.Step :=
  [Combined.Step.find envFail c10sda,
   Combined.Step.find envDrift c10sdb,
   Combined.Step.ifacesRemoved envDrift c10sda [UDisks2.UD2_DBUS_INTERFACE_BLOCK]]

/-- C10: the claim (and the Q_ASSERT in _k_deviceRemoved) says a live
handle's backing object is non-null whenever a backend removal event is
processed. On this trace the assert condition evaluates to false: a handle
created by find for an unresolvable identifier receives a removal event
with no intervening add, because a cache resync inside createDevice
introduced the identifier into the backend cache without emitting
deviceAdded. The final state shows the handle survived with a null backing
object. -/
theorem c10_removal_assert_fails :
    (Combined.runTrace Combined.initSys c10trace).2 = [false, true]
    ∧ QMap.lookup c10sda
        (Combined.runTrace Combined.initSys c10trace).1.front.devicesMap
      = some { hid := 1, backendObject := none } := by
  constructor
  · decide
  · decide
